import Mathlib

/-!
Verification development for the travel-itinerary aggregation pipeline
(`travel_tools.py`, `travel_agent.py`, `api.py`).

The Python code is shallowly embedded: pure computations become Lean
functions, provider calls become oracles packaged in an `Env` record
(each oracle returns `Except String _`, where `.error` stands for the
provider call raising), and Python `dict.get`-with-default accesses are
modelled with `Option` fields and `Option.getD`.  Python floats are
modelled as exact rationals.  Apostrophe characters occurring inside
source string literals are dropped in the transliterated literals.
-/

set_option maxRecDepth 4000

/-! ## Calendar dates (`datetime.strptime(s, "%Y-%m-%d")` and date subtraction) -/

/-- A parsed calendar date, as produced by `datetime.strptime(s, "%Y-%m-%d")`. -/
structure Date where
  year : Nat
  month : Nat
  day : Nat
deriving DecidableEq, Repr, Inhabited

/-- Split a character list at every occurrence of `sep` (the semantics of
Python `str.split(sep)` for a one-character separator: empty segments are
preserved). -/
def splitOnChar (sep : Char) : List Char → List Char → List (List Char)
  | [], acc => [acc.reverse]
  | c :: cs, acc =>
    if c = sep then acc.reverse :: splitOnChar sep cs []
    else splitOnChar sep cs (c :: acc)

/-- Value of a list of decimal digits. -/
def digitsToNat (l : List Char) : Nat :=
  l.foldl (fun n c => n * 10 + (c.toNat - 48)) 0

/-- CPython strptime accepts `%m` / `%d` fields that are 1 or 2 digits long. -/
def validNumStr (l : List Char) : Bool :=
  l.all Char.isDigit && decide (1 ≤ l.length) && decide (l.length ≤ 2)

/-- Gregorian leap-year rule used by `datetime`. -/
def isLeap (y : Nat) : Bool :=
  y % 4 = 0 && (y % 100 ≠ 0 || y % 400 = 0)

/-- Days in a month, as validated by the `datetime` constructor. -/
def daysInMonth (y m : Nat) : Nat :=
  if m = 2 then (if isLeap y then 29 else 28)
  else if m = 4 ∨ m = 6 ∨ m = 9 ∨ m = 11 then 30
  else 31

/--
Model of `datetime.strptime(s, "%Y-%m-%d")`: `%Y` is exactly 4 digits,
`%m`/`%d` are 1 or 2 digits; the whole string must be consumed; the
resulting (year, month, day) must be a valid calendar date with year ≥ 1.
Returns `none` exactly when strptime raises `ValueError`.
-/
def parseDate (s : String) : Option Date :=
  match splitOnChar '-' s.data [] with
  | [ys, ms, ds] =>
    if (decide (ys.length = 4) && ys.all Char.isDigit
        && validNumStr ms && validNumStr ds) then
      let y := digitsToNat ys
      let m := digitsToNat ms
      let d := digitsToNat ds
      if 1 ≤ y ∧ 1 ≤ m ∧ m ≤ 12 ∧ 1 ≤ d ∧ d ≤ daysInMonth y m then
        some ⟨y, m, d⟩
      else none
    else none
  | _ => none

/-- Days in the months strictly before month `m` of year `y`. -/
def daysBeforeMonth (y m : Nat) : Nat :=
  ((List.range (m - 1)).map (fun i => daysInMonth y (i + 1))).sum

/-- Proleptic-Gregorian ordinal of a date (the value of `date.toordinal()`
in Python: 0001-01-01 has ordinal 1).  Differences of ordinals equal
`(d2 - d1).days` for midnight datetimes. -/
def toOrdinal (d : Date) : Nat :=
  (d.year - 1) * 365 + (d.year - 1) / 4 + (d.year - 1) / 400 - (d.year - 1) / 100
    + daysBeforeMonth d.year d.month + d.day

/-- `(end - start).days` for two parsed dates, as a signed integer. -/
def dateDiffDays (e s : Date) : Int :=
  (toOrdinal e : Int) - (toOrdinal s : Int)

/-- The `ValueError` message strptime raises on a malformed input
(quote characters of the Python message are omitted). -/
def strptimeMsg (s : String) : String :=
  "time data " ++ s ++ " does not match format %Y-%m-%d"

/-! ## `calculate_fuel_cost` (travel_tools.py lines 118-124) -/

/-- `calculate_fuel_cost(distance_meters)`: meters → miles at 0.000621371,
25 miles per gallon, 3.50 per gallon.  Floats modelled as exact rationals;
total function, no failure path in the source. -/
def calculate_fuel_cost (distance_meters : Int) : ℚ :=
  let miles : ℚ := (distance_meters : ℚ) * 0.000621371
  let gallons : ℚ := miles / 25
  gallons * 3.50

/-- Round a rational to the nearest integer, halves up: the floor of
`q + 1/2`, written with explicit integer division so it evaluates. -/
def roundRat (q : ℚ) : Int :=
  Int.fdiv (2 * q.num + (q.den : Int)) (2 * (q.den : Int))

/-- Render a rational with 2 decimal places (the `:.2f` format used for
the fuel-cost line; Python rounds the underlying binary float half-even,
we round half-up — the claims never inspect this string). -/
def format2 (q : ℚ) : String :=
  let n : Int := roundRat (q * 100)
  let sgn := if n < 0 then "-" else ""
  let m := n.natAbs
  let cents := m % 100
  let centsStr := if cents < 10 then "0" ++ toString cents else toString cents
  sgn ++ toString (m / 100) ++ "." ++ centsStr

/-- Render a rational with 1 decimal place (the `:.1f` temperature format). -/
def format1 (q : ℚ) : String :=
  let n : Int := roundRat (q * 10)
  let sgn := if n < 0 then "-" else ""
  let m := n.natAbs
  sgn ++ toString (m / 10) ++ "." ++ toString (m % 10)

/-! ## Dynamic provider values -/

/-- A dynamically typed provider-response value, as far as the claims
need to distinguish: a number (int or float), a string, or any other
Python value (None, list, dict, ...). -/
inductive RVal where
  | num (q : ℚ)
  | str (s : String)
  | other
deriving DecidableEq, Repr, Inhabited

/-- Model of Python `float(s)` on a string: optional sign, digits with at
most one decimal point, at least one digit (exponent / inf / nan forms are
not exercised by any claim and are out of the modelled fragment). -/
def parseFloatStr (s : String) : Option ℚ :=
  let t := ((s.data.dropWhile (fun c => c = ' ')).reverse.dropWhile (fun c => c = ' ')).reverse
  let (sgn, u) : ℚ × List Char :=
    match t with
    | '-' :: rest => (-1, rest)
    | '+' :: rest => (1, rest)
    | _ => (1, t)
  match splitOnChar '.' u [] with
  | [a] =>
    if a.all Char.isDigit && decide (1 ≤ a.length) then
      some (sgn * (digitsToNat a : ℚ))
    else none
  | [a, b] =>
    if a.all Char.isDigit && b.all Char.isDigit && decide (1 ≤ a.length + b.length) then
      some (sgn * ((digitsToNat a : ℚ) + (digitsToNat b : ℚ) / (10 : ℚ) ^ b.length))
    else none
  | _ => none

/-- Model of Python `float(v)`: numbers pass through, numeric strings are
parsed, anything else raises (`none`). -/
def pyFloat (v : RVal) : Option ℚ :=
  match v with
  | .num q => some q
  | .str s => parseFloatStr s
  | .other => none

/-- Python f-string rendering of a possibly missing value (`None` prints
as `"None"`). -/
def pyStr (o : Option String) : String :=
  match o with
  | some s => s
  | none => "None"

/-! ## Google Maps directions data model -/

/-- One step of a leg (`step.get("html_instructions")`). -/
structure Step where
  html_instructions : Option String
deriving DecidableEq, Repr, Inhabited

/-- One leg of a route; all fields are `dict.get`-accessed in the source. -/
structure Leg where
  start_address : Option String
  end_address : Option String
  duration_text : Option String
  distance_text : Option String
  distance_value : Option Int
  steps : List Step
deriving DecidableEq, Repr, Inhabited

/-- One route returned by the directions provider (`route.get("legs", [])`). -/
structure Route where
  legs : List Leg
deriving DecidableEq, Repr, Inhabited

/-- A directions query as issued by `gmaps.directions` (the source always
passes `alternatives=True`, so that flag is left implicit). -/
structure DirectionsQuery where
  origin : String
  dest : String
  mode : String
  transit_mode : Option (List String)
deriving DecidableEq, Repr, Inhabited

/-- The normalized transportation option dict built by `get_transportation`. -/
structure TransportationOption where
  type : String
  title : String
  description : String
  steps : List String
deriving DecidableEq, Repr, Inhabited

/-! ## Remaining provider data models -/

/-- A geocoding hit: for the OpenWeatherMap geocoder the fields are
`lat`/`lon`, for the Google geocoder `geometry.location.lat`/`lng`;
both collapse to a coordinate pair here. -/
structure GeoPoint where
  lat : ℚ
  lng : ℚ
deriving DecidableEq, Repr, Inhabited

/-- The fields of the OpenWeatherMap current-conditions response that the
adapter reads (`data["main"]["temp"]` etc.); a response missing one of
them makes the adapter raise, which is folded into the oracle error. -/
structure WeatherRaw where
  temp : ℚ
  feels_like : ℚ
  description : String
  humidity : Int
deriving DecidableEq, Repr, Inhabited

/-- The normalized weather dict built by `get_weather_forecast`. -/
structure WeatherSnapshot where
  temperature : String
  feels_like : String
  status : String
  humidity : Int
deriving DecidableEq, Repr, Inhabited

/-- One Tavily search result; every field is `dict.get`-accessed. -/
structure TavilyResult where
  title : Option String
  content : Option String
  snippet : Option String
  url : Option String
  image_url : Option String
  rating : Option RVal
deriving DecidableEq, Repr, Inhabited

/-- The normalized attraction dict built by `get_attractions`. -/
structure Attraction where
  title : String
  description : String
  url : String
  image : String
  rating : ℚ
  category : String
deriving DecidableEq, Repr, Inhabited

/-- A Google Places nearby-search hit.  `place_id` is always present in
the provider response; `types` is `dict.get`-accessed. -/
structure Place where
  place_id : String
  types : Option (List String)
deriving DecidableEq, Repr, Inhabited

/-- The detail record for one place (`detail_result.get("result", {})`);
all fields `dict.get`-accessed.  `rating` is kept dynamically typed, as
the source stores it unconverted; `price_level` is typed as an integer
(the only shape the provider returns for it). -/
structure PlaceDetail where
  name : Option String
  formatted_address : Option String
  website : Option String
  rating : Option RVal
  price_level : Option Int
deriving DecidableEq, Repr, Inhabited

/-- The normalized restaurant dict built by `get_restaurants`. -/
structure Restaurant where
  name : String
  description : String
  url : String
  rating : RVal
  cuisine : String
  price_level : String
deriving DecidableEq, Repr, Inhabited

/-- The normalized hotel dict built by `get_hotels`. -/
structure Hotel where
  name : String
  description : String
  url : String
  rating : RVal
  location : String
  amenities : List String
deriving DecidableEq, Repr, Inhabited

/-- The normalized local-tip dict built by `get_local_tips`. -/
structure LocalTip where
  title : String
  description : String
  url : String
  category : String
deriving DecidableEq, Repr, Inhabited

/-! ## Trip request / response data model (travel_agent.py and api.py) -/

/-- The `preferences` dict as the agent reads it (`preferences.get(...)`,
each key possibly absent). -/
structure Preferences where
  budget : Option String
  interests : List String
  transportation : Option String
  accommodation_type : Option String
  pace : Option String
deriving DecidableEq, Repr, Inhabited

/-- The empty dict that `request_data.get("preferences", {})` defaults to. -/
def emptyPreferences : Preferences :=
  { budget := none, interests := [], transportation := none,
    accommodation_type := none, pace := none }

/-- The `request_data` dict consumed by `TravelAgent.generate_itinerary`;
keys read with `[...]` are required, keys read with `.get` are `Option`. -/
structure RequestData where
  from_location : String
  to_location : String
  start_date : String
  end_date : String
  preferences : Option Preferences
  number_of_travelers : Option Int
  include_weather : Option Bool
  include_local_tips : Option Bool
deriving DecidableEq, Repr, Inhabited

/-- The `metadata` block of the response. -/
structure Metadata where
  includes_weather : Bool
  includes_local_tips : Bool
  number_of_travelers : Int
deriving DecidableEq, Repr, Inhabited

/-- The `request_details` block of the response. -/
structure RequestDetails where
  from_location : String
  to_location : String
  start_date : String
  end_date : String
  duration_days : Int
  preferences : Preferences
  number_of_travelers : Int
deriving DecidableEq, Repr, Inhabited

/-- The response dict returned by `TravelAgent.generate_itinerary`
(travel_agent.py lines 127-154).  The weather entry is a possibly empty
dict, modelled as `Option WeatherSnapshot` (`none` = `{}`). -/
structure ItineraryResponse where
  itinerary : String
  from_location : String
  to_location : String
  start_date : String
  end_date : String
  generated_at : String
  metadata : Metadata
  transportation_info : List TransportationOption
  weather_info : Option WeatherSnapshot
  attractions : List Attraction
  restaurants : List Restaurant
  hotels : List Hotel
  local_tips : List LocalTip
  request_details : RequestDetails
deriving DecidableEq, Repr, Inhabited

/-- The generation prompt (travel_agent.py lines 75-117) represented by
the tuple of values interpolated into the f-string; the surrounding fixed
text is common to all prompts and carries no claim-relevant content. -/
structure Prompt where
  num_days : Int
  from_location : String
  to_location : String
  start_date : String
  end_date : String
  num_travelers : Int
  budget : Option String
  transportation : Option String
  accommodation_type : Option String
  transportation_options : List TransportationOption
  attractions : List Attraction
  restaurants : List Restaurant
  hotels : List Hotel
  weather : Option WeatherSnapshot
  local_tips : List LocalTip
deriving DecidableEq, Repr, Inhabited

/-! ## The environment of external collaborators

Each oracle models one provider interaction; `.error msg` stands for the
underlying Python call raising an exception. -/

/-- External collaborators of the pipeline. `clientInitOk` models whether
`GoogleMapsClient(key=os.getenv("GOOGLE_MAPS_API_KEY"))` construction
succeeds (it raises, e.g., when the key is absent); `nowIso` is the value
of `datetime.utcnow().isoformat()`. -/
structure Env where
  clientInitOk : Bool
  directions : DirectionsQuery → Except String (List Route)
  geoDirect : String → Except String (List GeoPoint)
  currentWeather : GeoPoint → Except String WeatherRaw
  tavily : String → Except String (List TavilyResult)
  geocode : String → Except String (List GeoPoint)
  placesNearby : GeoPoint → Nat → String → Except String (List Place)
  placeDetail : String → Except String PlaceDetail
  llm : Prompt → Except String String
  nowIso : String

/-! ## `get_transportation` (travel_tools.py lines 16-115) -/

/-- The synthetic flight option (lines 25-37); the apostrophe of the
source literal "airline's" is dropped. -/
def flightOption (from_location to_location travel_date : String) : TransportationOption :=
  { type := "transportation"
    title := "Flight options from " ++ from_location ++ " to " ++ to_location
    description := "Flight booking is currently not supported in the app"
    steps :=
      [ "Please check popular flight booking websites:"
      , "- Google Flights"
      , "- Skyscanner"
      , "- Kayak"
      , "- Your preferred airlines website"
      , "Search for flights from " ++ from_location ++ " to " ++ to_location
          ++ " for " ++ travel_date ] }

/-- The synthetic no-routes option (lines 99-109). -/
def noRoutesOption (from_location to_location : String) : TransportationOption :=
  { type := "transportation"
    title := "No direct routes found from " ++ from_location ++ " to " ++ to_location
    description := "Consider checking alternative transportation methods"
    steps :=
      [ "Consider breaking your journey into smaller segments"
      , "Check with local transportation authorities"
      , "Consider alternative travel dates"
      , "Look for multi-modal transportation options" ] }

/-- Mode-resolution table (lines 40-48): which (travel_mode, transit_mode)
pairs get queried for a given user mode.  (Never consulted for `flight`,
which returns earlier.) -/
def modesToCheck (mode : String) : List (String × Option (List String)) :=
  if mode = "car" then [("driving", none)]
  else if mode = "train" then [("transit", some ["rail", "train"])]
  else [("transit", some ["bus", "train", "subway"]), ("driving", none)]

/-- Build the directions query for one table entry (lines 53-58). -/
def queryOf (from_location to_location : String)
    (mq : String × Option (List String)) : DirectionsQuery :=
  { origin := from_location, dest := to_location, mode := mq.1, transit_mode := mq.2 }

/-- The instruction texts of a leg: steps whose `html_instructions` is
truthy (present and non-empty), lines 78 and 90. -/
def stepTexts (steps : List Step) : List String :=
  steps.filterMap (fun st =>
    match st.html_instructions with
    | some s => if s = "" then none else some s
    | none => none)

/-- The driving option dict for one leg (lines 73-84). -/
def drivingOption (leg : Leg) : TransportationOption :=
  { type := "transportation"
    title := "Driving from " ++ pyStr leg.start_address ++ " to " ++ pyStr leg.end_address
    description := "Duration: " ++ pyStr leg.duration_text
        ++ ", Distance: " ++ pyStr leg.distance_text
    steps := stepTexts leg.steps ++
      [ "Suggested stops every 2-3 hours for rest"
      , "Check parking options at your destination"
      , "Ensure your vehicle is serviced for long-distance travel"
      , "Estimated fuel cost based on distance: $"
          ++ format2 (calculate_fuel_cost (leg.distance_value.getD 0)) ] }

/-- The transit option dict for one leg (lines 86-91). -/
def transitOption (leg : Leg) : TransportationOption :=
  { type := "transportation"
    title := "Public Transit from " ++ pyStr leg.start_address
        ++ " to " ++ pyStr leg.end_address
    description := "Duration: " ++ pyStr leg.duration_text
        ++ ", Distance: " ++ pyStr leg.distance_text
    steps := stepTexts leg.steps }

/-- The option built for one route (line 72: branch on the travel mode). -/
def routeOption (travel_mode : String) (leg : Leg) : TransportationOption :=
  if travel_mode = "driving" then drivingOption leg else transitOption leg

/-- Process the (already truncated) route list of one mode, lines 67-92.
`route.get("legs", [])[0]` raises IndexError on a route with no legs;
that exception aborts the rest of this mode but keeps the options already
appended, so processing stops at the first leg-less route. -/
def processRoutes (travel_mode : String) : List Route → List TransportationOption
  | [] => []
  | r :: rs =>
    match r.legs.head? with
    | none => []
    | some leg => routeOption travel_mode leg :: processRoutes travel_mode rs

/-- The options contributed by one mode-table entry: issue the query
(lines 60-64); a raising query is caught at line 93 and contributes
nothing; otherwise at most 2 routes are processed (line 67). -/
def modeOptions (env : Env) (from_location to_location : String)
    (mq : String × Option (List String)) : List TransportationOption :=
  match env.directions (queryOf from_location to_location mq) with
  | .error _ => []
  | .ok routes => processRoutes mq.1 (routes.take 2)

/-- The fold of the query loop (lines 50-95) over the mutable
`transportation_options` accumulator. -/
def collectOptions (env : Env) (from_location to_location : String) :
    List (String × Option (List String)) → List TransportationOption → List TransportationOption
  | [], acc => acc
  | mq :: rest, acc =>
    collectOptions env from_location to_location rest
      (acc ++ modeOptions env from_location to_location mq)

/-- `get_transportation(from_location, to_location, travel_date, mode)`
(lines 16-115).  Client construction happens first inside the outer
`try`; if it raises, the outer handler returns `[]` (line 113-115).
Mode `flight` short-circuits before any directions query.  After the
query loop, an empty accumulator is replaced by the synthetic
no-routes option (lines 98-109). -/
def get_transportation (from_location to_location travel_date : String)
    (mode : String) (env : Env) : List TransportationOption :=
  if !env.clientInitOk then []
  else if mode = "flight" then [flightOption from_location to_location travel_date]
  else
    let opts := collectOptions env from_location to_location (modesToCheck mode) []
    if opts.isEmpty then [noRoutesOption from_location to_location] else opts

/-! ## `get_weather_forecast` (travel_tools.py lines 127-176) -/

/-- `get_weather_forecast(location, date)`: geocode, then current
conditions; any raising call or missing field yields the empty dict
(`none`); an empty geocoding result yields the empty dict (line 146-148).
Temperatures formatted to one decimal with a Celsius suffix. -/
def get_weather_forecast (location date : String) (env : Env) : Option WeatherSnapshot :=
  match env.geoDirect location with
  | .error _ => none
  | .ok [] => none
  | .ok (g :: _) =>
    match env.currentWeather g with
    | .error _ => none
    | .ok w =>
      some { temperature := format1 w.temp ++ "°C"
             feels_like := format1 w.feels_like ++ "°C"
             status := w.description
             humidity := w.humidity }

/-! ## `get_attractions` (travel_tools.py lines 179-216) -/

/-- The search query issued for attractions (line 184). -/
def attractionsQuery (location : String) : String :=
  "top tourist attractions in " ++ location

/-- Normalize one Tavily result into an attraction record (lines 198-205).
`float(result.get("rating", 4.0))` raises on a non-numeric rating, in
which case the whole result is skipped (lines 208-210): `none`. -/
def processAttraction (r : TavilyResult) : Option Attraction :=
  match pyFloat (r.rating.getD (.num 4)) with
  | none => none
  | some q =>
    some { title := r.title.getD "Unknown Attraction"
           description := r.content.getD (r.snippet.getD "No description available")
           url := r.url.getD ""
           image := r.image_url.getD ""
           rating := q
           category := "Tourist Spot" }

/-- `get_attractions(location)`: search, keep the first 5 results, skip
individually malformed ones; a raising search (or client construction)
yields `[]`. -/
def get_attractions (location : String) (env : Env) : List Attraction :=
  match env.tavily (attractionsQuery location) with
  | .error _ => []
  | .ok results => (results.take 5).filterMap processAttraction

/-! ## `get_restaurants` / `get_hotels` (travel_tools.py lines 219-298) -/

/-- Python `str.title()`: a character is uppercased when the previous
character is not alphabetic, lowercased otherwise. -/
def titleCaseGo : Bool → List Char → List Char
  | _, [] => []
  | prevAlpha, c :: cs =>
    (if prevAlpha then c.toLower else c.toUpper) :: titleCaseGo c.isAlpha cs

/-- Python `s.replace("_", " ").title()`. -/
def titleCase (s : String) : String :=
  String.mk (titleCaseGo false s.data)

/-- Python `s.replace("_", " ")` for the one-character pattern the source
uses. -/
def underscoreToSpace (s : String) : String :=
  String.mk (s.data.map (fun c => if c = '_' then ' ' else c))

/-- `"$" * (detail.get("price_level", 2) or 2)` — Python `or` replaces a
falsy (zero) level with 2, and string repetition by a non-positive count
is empty. -/
def dollarsOf (pl : Option Int) : String :=
  let n : Int := match pl with
    | none => 2
    | some v => if v = 0 then 2 else v
  String.mk (List.replicate n.toNat (Char.ofNat 36))

/-- The restaurant record built from a detail lookup and a cuisine label
(lines 246-253). -/
def restaurantRecord (detail : PlaceDetail) (cuisine : String) : Restaurant :=
  { name := detail.name.getD ""
    description := "Located at: " ++ detail.formatted_address.getD ""
    url := detail.website.getD ""
    rating := detail.rating.getD (.num 4)
    cuisine := cuisine
    price_level := dollarsOf detail.price_level }

/-- Process one nearby place into a restaurant: detail lookup (line 243)
then record construction; `place.get("types", ["Local"])[0]` raises
IndexError when `types` is present but empty.  Unlike the other adapters
there is no per-item handler here, so the error aborts the whole batch. -/
def processRestaurant (env : Env) (p : Place) : Except String Restaurant :=
  match env.placeDetail p.place_id with
  | .error e => .error e
  | .ok detail =>
    match (p.types.getD ["Local"]).head? with
    | none => .error "IndexError: list index out of range"
    | some c => .ok (restaurantRecord detail (titleCase (underscoreToSpace c)))

/-- Process the truncated place list for restaurants; first failure
aborts (it propagates to the outer handler, which returns `[]`). -/
def buildRestaurants (env : Env) : List Place → Except String (List Restaurant)
  | [] => .ok []
  | p :: ps =>
    match processRestaurant env p with
    | .error e => .error e
    | .ok r =>
      match buildRestaurants env ps with
      | .error e => .error e
      | .ok rs => .ok (r :: rs)

/-- `get_restaurants(location)` (lines 219-257): geocode (empty → `[]`),
nearby search with a 5 km radius and type `restaurant`, detail lookups
for the first 5 places; any raising call yields `[]`. -/
def get_restaurants (location : String) (env : Env) : List Restaurant :=
  if !env.clientInitOk then []
  else
    match env.geocode location with
    | .error _ => []
    | .ok [] => []
    | .ok (g :: _) =>
      match env.placesNearby g 5000 "restaurant" with
      | .error _ => []
      | .ok places =>
        match buildRestaurants env (places.take 5) with
        | .error _ => []
        | .ok rs => rs

/-- The hotel record built from a detail lookup (lines 287-294);
amenities are all category tags, title-cased. -/
def hotelRecord (location : String) (p : Place) (detail : PlaceDetail) : Hotel :=
  { name := detail.name.getD ""
    description := "Located at: " ++ detail.formatted_address.getD ""
    url := detail.website.getD ""
    rating := detail.rating.getD (.num 4)
    location := location
    amenities := (p.types.getD []).map (fun a => titleCase (underscoreToSpace a)) }

/-- Process the truncated place list for hotels; a failing detail lookup
aborts the batch (outer handler returns `[]`). -/
def buildHotels (env : Env) (location : String) : List Place → Except String (List Hotel)
  | [] => .ok []
  | p :: ps =>
    match env.placeDetail p.place_id with
    | .error e => .error e
    | .ok detail =>
      match buildHotels env location ps with
      | .error e => .error e
      | .ok hs => .ok (hotelRecord location p detail :: hs)

/-- `get_hotels(location, check_in)` (lines 260-298): geocode (empty →
`[]`), nearby search with a 5 km radius and type `lodging`, detail
lookups for the first 5 places; any raising call yields `[]`. -/
def get_hotels (location check_in : String) (env : Env) : List Hotel :=
  if !env.clientInitOk then []
  else
    match env.geocode location with
    | .error _ => []
    | .ok [] => []
    | .ok (g :: _) =>
      match env.placesNearby g 5000 "lodging" with
      | .error _ => []
      | .ok places =>
        match buildHotels env location (places.take 5) with
        | .error _ => []
        | .ok hs => hs

/-! ## `get_local_tips` (travel_tools.py lines 301-335) -/

/-- The search query issued for local tips (line 306). -/
def tipsQuery (location : String) : String :=
  "local tips and customs in " ++ location

/-- Normalize one Tavily result into a tip record (lines 319-324); every
field access is defaulted, so the per-item handler never fires. -/
def tipRecord (r : TavilyResult) : LocalTip :=
  { title := r.title.getD "Local Tip"
    description := r.content.getD (r.snippet.getD "No description available")
    url := r.url.getD ""
    category := "Local Tips" }

/-- `get_local_tips(location)`: search, keep the first 3 results; a
raising search yields `[]`. -/
def get_local_tips (location : String) (env : Env) : List LocalTip :=
  match env.tavily (tipsQuery location) with
  | .error _ => []
  | .ok results => (results.take 3).map tipRecord

/-! ## `TravelAgent.generate_itinerary` (travel_agent.py lines 45-154) -/

/-- `request_data.get("preferences", {})` (line 51). -/
def effPreferences (req : RequestData) : Preferences :=
  req.preferences.getD emptyPreferences

/-- `num_days = (end - start).days + 1` (lines 56-59). -/
def numDaysOf (s e : Date) : Int :=
  dateDiffDays e s + 1

/-- The prompt assembled at lines 75-117, represented by its interpolated
values; the adapters are invoked exactly as at lines 62-72. -/
def promptFor (req : RequestData) (env : Env) (s e : Date) : Prompt :=
  { num_days := numDaysOf s e
    from_location := req.from_location
    to_location := req.to_location
    start_date := req.start_date
    end_date := req.end_date
    num_travelers := req.number_of_travelers.getD 1
    budget := (effPreferences req).budget
    transportation := (effPreferences req).transportation
    accommodation_type := (effPreferences req).accommodation_type
    transportation_options := get_transportation req.from_location req.to_location
        req.start_date ((effPreferences req).transportation.getD "mixed") env
    attractions := get_attractions req.to_location env
    restaurants := get_restaurants req.to_location env
    hotels := get_hotels req.to_location req.start_date env
    weather := get_weather_forecast req.to_location req.start_date env
    local_tips := get_local_tips req.to_location env }

/-- The response dict assembled at lines 127-154 from the model output
`content` and the adapter outputs. -/
def assembleResponse (req : RequestData) (env : Env) (s e : Date)
    (content : String) : ItineraryResponse :=
  { itinerary := content
    from_location := req.from_location
    to_location := req.to_location
    start_date := req.start_date
    end_date := req.end_date
    generated_at := env.nowIso
    metadata :=
      { includes_weather := req.include_weather.getD true
        includes_local_tips := req.include_local_tips.getD true
        number_of_travelers := req.number_of_travelers.getD 1 }
    transportation_info := get_transportation req.from_location req.to_location
        req.start_date ((effPreferences req).transportation.getD "mixed") env
    weather_info := get_weather_forecast req.to_location req.start_date env
    attractions := get_attractions req.to_location env
    restaurants := get_restaurants req.to_location env
    hotels := get_hotels req.to_location req.start_date env
    local_tips := get_local_tips req.to_location env
    request_details :=
      { from_location := req.from_location
        to_location := req.to_location
        start_date := req.start_date
        end_date := req.end_date
        duration_days := numDaysOf s e
        preferences := effPreferences req
        number_of_travelers := req.number_of_travelers.getD 1 } }

/-- `TravelAgent.generate_itinerary(request_data)`: parse the two dates
(lines 57-58; a malformed one raises ValueError, modelled as `.error`),
fan out to the six adapters, invoke the model once (line 124; a raising
model call propagates), and assemble the response.  The adapter calls
themselves never raise. -/
def generate_itinerary (req : RequestData) (env : Env) : Except String ItineraryResponse :=
  match parseDate req.start_date with
  | none => .error (strptimeMsg req.start_date)
  | some s =>
    match parseDate req.end_date with
    | none => .error (strptimeMsg req.end_date)
    | some e =>
      match env.llm (promptFor req env s e) with
      | .error msg => .error msg
      | .ok content => .ok (assembleResponse req env s e content)

/-! ## The API boundary (api.py lines 31-68) -/

/-- The pydantic `Preferences` wire model (api.py lines 31-35): every
field required. -/
structure WirePreferences where
  budget : String
  interests : List String
  transportation : String
  accommodation_type : String
  pace : String
deriving DecidableEq, Repr, Inhabited

/-- The pydantic `TravelRequest` wire model (api.py lines 39-47). -/
structure TravelRequest where
  from_location : String
  to_location : String
  start_date : String
  end_date : String
  preferences : WirePreferences
  number_of_travelers : Int
  include_weather : Bool
  include_local_tips : Bool
deriving DecidableEq, Repr, Inhabited

/-- `request.model_dump()`: every key present in the resulting dict. -/
def model_dump (r : TravelRequest) : RequestData :=
  { from_location := r.from_location
    to_location := r.to_location
    start_date := r.start_date
    end_date := r.end_date
    preferences := some
      { budget := some r.preferences.budget
        interests := r.preferences.interests
        transportation := some r.preferences.transportation
        accommodation_type := some r.preferences.accommodation_type
        pace := some r.preferences.pace }
    number_of_travelers := some r.number_of_travelers
    include_weather := some r.include_weather
    include_local_tips := some r.include_local_tips }

/-- The wire-level outcome of the endpoint: a 200 body or an
`HTTPException` with a status code and detail message. -/
inductive ApiOutcome where
  | success (resp : ItineraryResponse)
  | httpError (status : Nat) (detail : String)
deriving DecidableEq, Repr, Inhabited

/-- The `/api/v1/generate-itinerary` handler (api.py lines 54-68): any
exception from the agent is reported as HTTP 500 with a prefixed detail
message. -/
def api_generate_itinerary (r : TravelRequest) (env : Env) : ApiOutcome :=
  match generate_itinerary (model_dump r) env with
  | .ok itinerary => .success itinerary
  | .error e => .httpError 500 ("Error generating itinerary: " ++ e)

/-! ## Concrete fixtures used by witnesses and counterexamples -/

/-- A concrete driving/transit leg San Francisco → Los Angeles. -/
def legSF : Leg :=
  { start_address := some "San Francisco, CA, USA"
    end_address := some "Los Angeles, CA, USA"
    duration_text := some "5 hours 45 mins"
    distance_text := some "383 mi"
    distance_value := some 616000
    steps := [{ html_instructions := some "Head south on US-101" }] }

/-- A concrete one-leg route. -/
def routeSF : Route := { legs := [legSF] }

/-- A concrete Tavily hit with no rating field. -/
def tavilyHit : TavilyResult :=
  { title := some "Griffith Observatory"
    content := some "Iconic hilltop observatory with city views"
    snippet := none
    url := some "https://example.com/griffith"
    image_url := some "https://example.com/griffith.jpg"
    rating := none }

/-- A Tavily hit whose rating field holds a non-numeric value (e.g. the
JSON value `null` or a list), on which Python `float` raises. -/
def badTavily : TavilyResult :=
  { title := some "Mystery Museum"
    content := some "A museum"
    snippet := none
    url := some "https://example.com/museum"
    image_url := none
    rating := some RVal.other }

/-- A concrete nearby-search hit. -/
def placeHit : Place :=
  { place_id := "p1", types := some ["mexican_restaurant", "point_of_interest"] }

/-- A concrete place-detail record with no rating field. -/
def detailHit : PlaceDetail :=
  { name := some "Casa Blanca"
    formatted_address := some "123 Main St, Los Angeles"
    website := some "https://example.com/casa"
    rating := none
    price_level := some 2 }

/-- A concrete current-conditions payload. -/
def weatherRawLA : WeatherRaw :=
  { temp := 21.5, feels_like := 20.9, description := "clear sky", humidity := 40 }

/-- An environment in which every provider succeeds with non-empty data
and the model returns a non-empty narrative. -/
def envFull : Env :=
  { clientInitOk := true
    directions := fun _ => .ok [routeSF]
    geoDirect := fun _ => .ok [{ lat := 34, lng := -118 }]
    currentWeather := fun _ => .ok weatherRawLA
    tavily := fun _ => .ok [tavilyHit]
    geocode := fun _ => .ok [{ lat := 34, lng := -118 }]
    placesNearby := fun _ _ _ => .ok [placeHit]
    placeDetail := fun _ => .ok detailHit
    llm := fun _ => .ok "Here is your 5-day itinerary from San Francisco to Los Angeles: day by day plan"
    nowIso := "2024-01-15T12:00:00" }

/-- An environment in which Maps-client construction fails (e.g. the
GOOGLE_MAPS_API_KEY variable is unset, so `GoogleMapsClient(...)` raises). -/
def envNoKey : Env := { envFull with clientInitOk := false }

/-- An environment in which every directions query raises. -/
def envAllFail : Env := { envFull with directions := fun _ => .error "HTTPError" }

/-- An environment in which transit directions queries raise but driving
queries succeed. -/
def envTransitFail : Env :=
  { envFull with directions := fun q =>
      if q.mode = "transit" then .error "TransportError" else .ok [routeSF] }

/-- An environment whose attraction search returns one result carrying a
non-numeric rating value. -/
def envBadRating : Env := { envFull with tavily := fun _ => .ok [badTavily] }

/-- The example request of travel_agent.py `main()` (lines 163-175). -/
def reqSF : RequestData :=
  { from_location := "San Francisco"
    to_location := "Los Angeles"
    start_date := "2024-02-01"
    end_date := "2024-02-05"
    preferences := some
      { budget := some "medium"
        interests := ["food", "culture", "nature"]
        transportation := some "car"
        accommodation_type := none
        pace := none }
    number_of_travelers := none
    include_weather := none
    include_local_tips := none }

/-- The response the composer produces for `reqSF` under `envFull`. -/
def respSF : ItineraryResponse :=
  (generate_itinerary reqSF envFull).toOption.getD default

/-- `reqSF` with the end date strictly before the start date. -/
def reqRev : RequestData :=
  { reqSF with start_date := "2024-02-05", end_date := "2024-02-01" }

/-- `reqSF` with both content flags set to true. -/
def reqOn : RequestData :=
  { reqSF with include_weather := some true, include_local_tips := some true }

/-- `reqSF` with both content flags set to false. -/
def reqOff : RequestData :=
  { reqSF with include_weather := some false, include_local_tips := some false }

/-- A wire request whose start date is not ISO-formatted. -/
def wireReqBad : TravelRequest :=
  { from_location := "San Francisco"
    to_location := "Los Angeles"
    start_date := "02/01/2024"
    end_date := "2024-02-05"
    preferences :=
      { budget := "medium"
        interests := ["food"]
        transportation := "car"
        accommodation_type := "hotel"
        pace := "moderate" }
    number_of_travelers := 2
    include_weather := true
    include_local_tips := true }

/-! ## Helper lemmas -/

/-- Route processing yields at most one option per route. -/
theorem processRoutes_length_le (tm : String) (rs : List Route) :
    (processRoutes tm rs).length ≤ rs.length := by
  induction rs with
  | nil => simp [processRoutes]
  | cons r rs ih =>
    cases h : r.legs.head? with
    | none => simp [processRoutes, h]
    | some leg =>
      simp only [processRoutes, h, List.length_cons]
      exact Nat.succ_le_succ ih

/-- One mode-table entry contributes at most 2 options (line 67). -/
theorem modeOptions_length_le (env : Env) (f t : String)
    (mq : String × Option (List String)) :
    (modeOptions env f t mq).length ≤ 2 := by
  unfold modeOptions
  cases h : env.directions (queryOf f t mq) with
  | error e => simp
  | ok routes =>
    calc (processRoutes mq.1 (routes.take 2)).length
        ≤ (routes.take 2).length := processRoutes_length_le _ _
      _ ≤ 2 := by rw [List.length_take]; exact min_le_left _ _

/-- The accumulator fold over a two-entry mode table is the concatenation
of the two independent per-mode results. -/
theorem collectOptions_pair (env : Env) (f t : String)
    (a b : String × Option (List String)) :
    collectOptions env f t [a, b] [] =
      modeOptions env f t a ++ modeOptions env f t b := by
  simp [collectOptions]

/-- The accumulator fold over a one-entry mode table. -/
theorem collectOptions_single (env : Env) (f t : String)
    (a : String × Option (List String)) :
    collectOptions env f t [a] [] = modeOptions env f t a := by
  simp [collectOptions]

/-! ## Claim theorems -/

/-- C8: the fuel-cost estimator is a deterministic pure function of the
distance: for every distance `d` in meters, `calculate_fuel_cost d`
equals `d` converted to miles by the factor 0.000621371, divided by a
fuel efficiency of 25, multiplied by a unit fuel price of 3.50.  The
function is total, so it has no failure mode. -/
theorem C8_fuel_cost_formula (d : Int) :
    calculate_fuel_cost d = (d : ℚ) * 0.000621371 / 25 * 3.50 := rfl

/-- C3 counterexample: when the Maps client construction raises (the
outer except of `get_transportation`), mode `flight` yields the empty
list, not exactly one synthetic option — so the claim as stated
("always returns exactly one synthetic option") is false. -/
theorem C3_flight_counterexample :
    (get_transportation "San Francisco" "Los Angeles" "2024-03-01" "flight" envNoKey).length
      = 0 := by decide

/-- C3 (amended): whenever the Maps client construction succeeds, mode
`flight` returns exactly the one synthetic flight option — a value that
does not depend on the directions oracle at all, so no provider query is
issued (second conjunct: the result is identical under any other
successfully initialized environment). -/
theorem C3_flight_short_circuit (from_location to_location travel_date : String)
    (env : Env) (h : env.clientInitOk = true) :
    get_transportation from_location to_location travel_date "flight" env
      = [flightOption from_location to_location travel_date] ∧
    (∀ env2 : Env, env2.clientInitOk = true →
      get_transportation from_location to_location travel_date "flight" env
        = get_transportation from_location to_location travel_date "flight" env2) := by
  constructor
  · simp [get_transportation, h]
  · intro env2 h2
    simp [get_transportation, h, h2]

/-- Witness for C3 (amended) at a concrete environment. -/
theorem C3_flight_short_circuit_witness :
    get_transportation "San Francisco" "Los Angeles" "2024-03-01" "flight" envFull
      = [flightOption "San Francisco" "Los Angeles" "2024-03-01"] :=
  (C3_flight_short_circuit "San Francisco" "Los Angeles" "2024-03-01" envFull rfl).1

/-- C4: mode resolution: `car` queries driving only; `train` queries
transit restricted to rail/train submodes only; any other value
(including `mixed`) queries transit (bus/train/subway) and then driving;
each mode contributes at most 2 options; for an unrecognized non-flight
mode with a live client, the result is the transit-derived options
followed by the driving-derived options (or the synthetic no-routes
option when both are empty). -/
theorem C4_mode_resolution (env : Env) (f t d m : String) :
    modesToCheck "car" = [("driving", none)] ∧
    modesToCheck "train" = [("transit", some ["rail", "train"])] ∧
    (m ≠ "car" → m ≠ "train" →
      modesToCheck m = [("transit", some ["bus", "train", "subway"]), ("driving", none)]) ∧
    (∀ mq, (modeOptions env f t mq).length ≤ 2) ∧
    (env.clientInitOk = true → m ≠ "car" → m ≠ "train" → m ≠ "flight" →
      get_transportation f t d m env =
        (if (modeOptions env f t ("transit", some ["bus", "train", "subway"])
              ++ modeOptions env f t ("driving", none)).isEmpty
         then [noRoutesOption f t]
         else modeOptions env f t ("transit", some ["bus", "train", "subway"])
              ++ modeOptions env f t ("driving", none))) := by
  refine ⟨by decide, by decide, ?_, fun mq => modeOptions_length_le env f t mq, ?_⟩
  · intro h1 h2
    simp [modesToCheck, h1, h2]
  · intro hc h1 h2 h3
    simp [get_transportation, hc, h3, modesToCheck, h1, h2, collectOptions_pair]

/-- Witness for C4 at a concrete unrecognized mode and environment. -/
theorem C4_mode_resolution_witness :
    modesToCheck "car" = [("driving", none)] ∧
    get_transportation "A" "B" "2024-02-01" "scooter" envFull =
      (if (modeOptions envFull "A" "B" ("transit", some ["bus", "train", "subway"])
            ++ modeOptions envFull "A" "B" ("driving", none)).isEmpty
       then [noRoutesOption "A" "B"]
       else modeOptions envFull "A" "B" ("transit", some ["bus", "train", "subway"])
            ++ modeOptions envFull "A" "B" ("driving", none)) := by
  refine ⟨(C4_mode_resolution envFull "A" "B" "2024-02-01" "scooter").1, ?_⟩
  exact (C4_mode_resolution envFull "A" "B" "2024-02-01" "scooter").2.2.2.2
    rfl (by decide) (by decide) (by decide)

/-- C2: the Routing adapter never raises (it is a total function into a
list): when client construction fails the outer handler yields the empty
collection; with a live client the result is never empty; when all
queries produce zero options the result is exactly the synthetic
no-routes option; and a raising transit query does not abort the driving
query — the result is still built from the driving options alone. -/
theorem C2_routing_never_raises (env : Env) (f t d m : String) :
    (env.clientInitOk = false → get_transportation f t d m env = []) ∧
    (env.clientInitOk = true → get_transportation f t d m env ≠ []) ∧
    (env.clientInitOk = true → m ≠ "flight" →
      collectOptions env f t (modesToCheck m) [] = [] →
      get_transportation f t d m env = [noRoutesOption f t]) ∧
    (∀ e, env.clientInitOk = true →
      env.directions (queryOf f t ("transit", some ["bus", "train", "subway"])) = .error e →
      get_transportation f t d "mixed" env =
        (if (modeOptions env f t ("driving", none)).isEmpty
         then [noRoutesOption f t]
         else modeOptions env f t ("driving", none))) := by
  refine ⟨?_, ?_, ?_, ?_⟩
  · intro h
    simp [get_transportation, h]
  · intro h
    simp only [get_transportation, h, Bool.not_true, Bool.false_eq_true, if_false]
    split
    · simp
    · cases hvs : collectOptions env f t (modesToCheck m) [] with
      | nil => simp [hvs]
      | cons v vs => simp [hvs]
  · intro h hm hcoll
    simp [get_transportation, h, hm, hcoll]
  · intro e h herr
    have ha : modeOptions env f t ("transit", some ["bus", "train", "subway"]) = [] := by
      unfold modeOptions
      rw [herr]
    have hmix : modesToCheck "mixed" =
        [("transit", some ["bus", "train", "subway"]), ("driving", none)] := by decide
    simp [get_transportation, h, hmix, collectOptions_pair, ha]

/-- Witness for C2, applying the theorem at four concrete environments:
no client, full success, total directions failure, and transit-only
failure. -/
theorem C2_routing_never_raises_witness :
    get_transportation "A" "B" "2024-02-01" "mixed" envNoKey = [] ∧
    get_transportation "San Francisco" "Los Angeles" "2024-02-01" "mixed" envFull ≠ [] ∧
    get_transportation "A" "B" "2024-02-01" "mixed" envAllFail = [noRoutesOption "A" "B"] ∧
    get_transportation "A" "B" "2024-02-01" "mixed" envTransitFail =
      (if (modeOptions envTransitFail "A" "B" ("driving", none)).isEmpty
       then [noRoutesOption "A" "B"]
       else modeOptions envTransitFail "A" "B" ("driving", none)) := by
  refine ⟨?_, ?_, ?_, ?_⟩
  · exact (C2_routing_never_raises envNoKey "A" "B" "2024-02-01" "mixed").1 rfl
  · exact (C2_routing_never_raises envFull "San Francisco" "Los Angeles" "2024-02-01"
      "mixed").2.1 rfl
  · exact (C2_routing_never_raises envAllFail "A" "B" "2024-02-01" "mixed").2.2.1
      rfl (by decide) (by decide)
  · exact (C2_routing_never_raises envTransitFail "A" "B" "2024-02-01" "mixed").2.2.2
      "TransportError" rfl rfl

/-- C5 counterexample: a provider result whose rating field holds a
non-numeric value is not defaulted to 4.0 — `float(...)` raises and the
per-result handler skips the whole record, so the adapter returns no
record at all for it. -/
theorem C5_rating_counterexample :
    envBadRating.tavily (attractionsQuery "Los Angeles") = .ok [badTavily] ∧
    badTavily.rating = some RVal.other ∧
    get_attractions "Los Angeles" envBadRating = [] := by
  exact ⟨rfl, rfl, by decide⟩

/-- C5 (amended): when the provider omits the rating field, the produced
record carries rating exactly 4.0 — for attractions, restaurants and
hotels alike; but an attraction result with a non-numeric rating value is
skipped entirely rather than defaulted. -/
theorem C5_rating_default :
    (∀ r : TavilyResult, r.rating = none →
      (processAttraction r).map Attraction.rating = some 4) ∧
    (∀ (detail : PlaceDetail) (cuisine : String), detail.rating = none →
      (restaurantRecord detail cuisine).rating = RVal.num 4) ∧
    (∀ (location : String) (p : Place) (detail : PlaceDetail), detail.rating = none →
      (hotelRecord location p detail).rating = RVal.num 4) ∧
    (∀ (r : TavilyResult) (v : RVal), r.rating = some v → pyFloat v = none →
      processAttraction r = none) := by
  refine ⟨?_, ?_, ?_, ?_⟩
  · intro r hr
    simp [processAttraction, hr, pyFloat]
  · intro detail cuisine hd
    simp [restaurantRecord, hd]
  · intro location p detail hd
    simp [hotelRecord, hd]
  · intro r v hrv hfv
    simp [processAttraction, hrv, hfv]

/-- Witness for C5 (amended) at concrete records. -/
theorem C5_rating_default_witness :
    (processAttraction tavilyHit).map Attraction.rating = some 4 ∧
    (restaurantRecord detailHit "Mexican Restaurant").rating = RVal.num 4 ∧
    (hotelRecord "Los Angeles" placeHit detailHit).rating = RVal.num 4 ∧
    processAttraction badTavily = none := by
  exact ⟨C5_rating_default.1 tavilyHit rfl,
    C5_rating_default.2.1 detailHit "Mexican Restaurant" rfl,
    C5_rating_default.2.2.1 "Los Angeles" placeHit detailHit rfl,
    C5_rating_default.2.2.2 badTavily RVal.other rfl rfl⟩

/-- C6: a malformed (non-ISO) start or end date makes the composition
fail at the date-parsing step; the error propagates to the boundary,
which reports HTTP 500 with a descriptive message — it is never a 200
with degraded adapter data. -/
theorem C6_malformed_date_500 (r : TravelRequest) (env : Env)
    (h : parseDate r.start_date = none ∨ parseDate r.end_date = none) :
    api_generate_itinerary r env =
      .httpError 500 ("Error generating itinerary: "
        ++ strptimeMsg (if (parseDate r.start_date).isNone
                        then r.start_date else r.end_date)) := by
  unfold api_generate_itinerary generate_itinerary
  cases hs : parseDate r.start_date with
  | none => simp [model_dump, hs]
  | some ds =>
    cases he : parseDate r.end_date with
    | none => simp [model_dump, hs, he]
    | some de =>
      cases h with
      | inl h1 => rw [hs] at h1; exact absurd h1 (by simp)
      | inr h2 => rw [he] at h2; exact absurd h2 (by simp)

/-- Witness for C6 at a concrete non-ISO start date. -/
theorem C6_malformed_date_500_witness :
    api_generate_itinerary wireReqBad envFull =
      .httpError 500 ("Error generating itinerary: "
        ++ strptimeMsg (if (parseDate wireReqBad.start_date).isNone
                        then wireReqBad.start_date else wireReqBad.end_date)) :=
  C6_malformed_date_500 wireReqBad envFull (Or.inl (by decide))

/-- C1: for a request whose dates parse as ISO calendar dates with
start ≤ end, any response the composer returns carries
`request_details.duration_days = (end - start).days + 1`. -/
theorem C1_duration_days (req : RequestData) (env : Env) (ds de : Date)
    (h1 : parseDate req.start_date = some ds)
    (h2 : parseDate req.end_date = some de)
    (_hle : toOrdinal ds ≤ toOrdinal de)
    (resp : ItineraryResponse)
    (hok : generate_itinerary req env = .ok resp) :
    resp.request_details.duration_days = dateDiffDays de ds + 1 := by
  unfold generate_itinerary at hok
  rw [h1, h2] at hok
  dsimp only at hok
  cases hl : env.llm (promptFor req env ds de) with
  | error msg =>
    rw [hl] at hok
    exact absurd hok (by simp)
  | ok content =>
    rw [hl] at hok
    dsimp only at hok
    injection hok with h
    subst h
    rfl

/-- Witness for C1: 2024-02-01 to 2024-02-05 gives duration_days = 5. -/
theorem C1_duration_days_witness : respSF.request_details.duration_days = 5 := by
  have h := C1_duration_days reqSF envFull ⟨2024, 2, 1⟩ ⟨2024, 2, 5⟩
    (by decide) (by decide) (by decide) respSF (by rfl)
  rw [h]
  decide

/-- Decidable equality for `Except` results, used to evaluate concrete
pipeline outcomes. -/
instance {ε α : Type} [DecidableEq ε] [DecidableEq α] : DecidableEq (Except ε α) :=
  fun a b =>
  match a, b with
  | .error e, .error f =>
    if h : e = f then isTrue (h ▸ rfl) else isFalse (fun hh => h (Except.error.inj hh))
  | .error _, .ok _ => isFalse (fun hh => Except.noConfusion hh)
  | .ok _, .error _ => isFalse (fun hh => Except.noConfusion hh)
  | .ok x, .ok y =>
    if h : x = y then isTrue (h ▸ rfl) else isFalse (fun hh => h (Except.ok.inj hh))

/-- C7: every successful composition embeds the six adapter outputs
verbatim in the response, echoes the request fields, and attaches the
generation timestamp; the narrative is additive. -/
theorem C7_response_embeds_adapters (req : RequestData) (env : Env)
    (resp : ItineraryResponse)
    (hok : generate_itinerary req env = .ok resp) :
    resp.transportation_info = get_transportation req.from_location req.to_location
        req.start_date ((effPreferences req).transportation.getD "mixed") env ∧
    resp.weather_info = get_weather_forecast req.to_location req.start_date env ∧
    resp.attractions = get_attractions req.to_location env ∧
    resp.restaurants = get_restaurants req.to_location env ∧
    resp.hotels = get_hotels req.to_location req.start_date env ∧
    resp.local_tips = get_local_tips req.to_location env ∧
    resp.from_location = req.from_location ∧
    resp.to_location = req.to_location ∧
    resp.start_date = req.start_date ∧
    resp.end_date = req.end_date ∧
    resp.generated_at = env.nowIso := by
  unfold generate_itinerary at hok
  cases hs : parseDate req.start_date with
  | none => rw [hs] at hok; exact absurd hok (by simp)
  | some ds =>
    rw [hs] at hok
    dsimp only at hok
    cases he : parseDate req.end_date with
    | none => rw [he] at hok; exact absurd hok (by simp)
    | some de =>
      rw [he] at hok
      dsimp only at hok
      cases hl : env.llm (promptFor req env ds de) with
      | error m => rw [hl] at hok; exact absurd hok (by simp)
      | ok content =>
        rw [hl] at hok
        dsimp only at hok
        injection hok with h
        subst h
        exact ⟨rfl, rfl, rfl, rfl, rfl, rfl, rfl, rfl, rfl, rfl, rfl⟩

/-- Witness for C7: the full successful San Francisco → Los Angeles run,
2024-02-01 to 2024-02-05: duration 5, non-empty narrative, all six
collections exactly the adapter outputs and non-empty. -/
theorem C7_response_embeds_adapters_witness :
    respSF.transportation_info
      = get_transportation "San Francisco" "Los Angeles" "2024-02-01" "car" envFull ∧
    respSF.request_details.duration_days = 5 ∧
    respSF.itinerary ≠ "" ∧
    respSF.transportation_info ≠ [] ∧
    respSF.weather_info ≠ none ∧
    respSF.attractions ≠ [] ∧
    respSF.restaurants ≠ [] ∧
    respSF.hotels ≠ [] ∧
    respSF.local_tips ≠ [] := by
  have h := C7_response_embeds_adapters reqSF envFull respSF (by rfl)
  exact ⟨h.1, by decide, by decide, by decide, by decide, by decide, by decide,
    by decide, by decide⟩

/-- Replace the content flags of a request (the only fields the two
booleans feed). -/
def setFlags (req : RequestData) (w t : Option Bool) : RequestData :=
  { req with include_weather := w, include_local_tips := t }

/-- Normalize the two flag echoes of a response's metadata block, leaving
every other field (including the traveler count inside metadata) intact. -/
def responseSansFlags (r : ItineraryResponse) : ItineraryResponse :=
  { r with metadata :=
      { r.metadata with includes_weather := true, includes_local_tips := true } }

/-- Changing the flags does not change the start date read by the parser. -/
theorem setFlags_start_date (req : RequestData) (w t : Option Bool) :
    (setFlags req w t).start_date = req.start_date := rfl

/-- Changing the flags does not change the end date read by the parser. -/
theorem setFlags_end_date (req : RequestData) (w t : Option Bool) :
    (setFlags req w t).end_date = req.end_date := rfl

/-- The generation prompt does not mention the two content flags. -/
theorem promptFor_setFlags (req : RequestData) (env : Env) (w t : Option Bool)
    (s e : Date) :
    promptFor (setFlags req w t) env s e = promptFor req env s e := rfl

/-- Outside the metadata flag echoes, the assembled response does not
depend on the two content flags. -/
theorem sansFlags_assemble (req : RequestData) (env : Env) (w t : Option Bool)
    (s e : Date) (content : String) :
    responseSansFlags (assembleResponse (setFlags req w t) env s e content)
      = responseSansFlags (assembleResponse req env s e content) := rfl

/-- C9 counterexample: with both flags set to false the pipeline still
fetches the weather and the local tips and embeds them in the response,
and the flags-off response is identical to the flags-on response except
for the two metadata booleans — the flags do not control whether the
optional content is fetched or included. -/
theorem C9_flags_counterexample :
    (generate_itinerary reqOff envFull).map ItineraryResponse.weather_info
      = .ok (get_weather_forecast "Los Angeles" "2024-02-01" envFull) ∧
    get_weather_forecast "Los Angeles" "2024-02-01" envFull ≠ none ∧
    (generate_itinerary reqOff envFull).map ItineraryResponse.local_tips
      = .ok (get_local_tips "Los Angeles" envFull) ∧
    get_local_tips "Los Angeles" envFull ≠ [] ∧
    (generate_itinerary reqOff envFull).map responseSansFlags
      = (generate_itinerary reqOn envFull).map responseSansFlags := by
  exact ⟨rfl, by decide, rfl, by decide, rfl⟩

/-- C9 (amended): the two content flags are echoed into the metadata
block and influence nothing else: responses for any two flag settings
agree once the two metadata booleans are normalized, and the metadata
booleans echo the supplied flags. -/
theorem C9_flags_only_metadata (req : RequestData) (env : Env)
    (w₁ t₁ w₂ t₂ : Option Bool) (b c : Bool) :
    (generate_itinerary (setFlags req w₁ t₁) env).map responseSansFlags
      = (generate_itinerary (setFlags req w₂ t₂) env).map responseSansFlags ∧
    (generate_itinerary (setFlags req (some b) (some c)) env).map
        (fun r => (r.metadata.includes_weather, r.metadata.includes_local_tips))
      = (generate_itinerary (setFlags req (some b) (some c)) env).map
        (fun _ => (b, c)) := by
  constructor
  · unfold generate_itinerary
    simp only [setFlags_start_date, setFlags_end_date, promptFor_setFlags]
    cases parseDate req.start_date with
    | none => rfl
    | some ds =>
      dsimp only
      cases parseDate req.end_date with
      | none => rfl
      | some de =>
        dsimp only
        cases env.llm (promptFor req env ds de) with
        | error m => rfl
        | ok content => simp only [Except.map, sansFlags_assemble]
  · unfold generate_itinerary
    simp only [setFlags_start_date, setFlags_end_date, promptFor_setFlags]
    cases parseDate req.start_date with
    | none => rfl
    | some ds =>
      dsimp only
      cases parseDate req.end_date with
      | none => rfl
      | some de =>
        dsimp only
        cases env.llm (promptFor req env ds de) with
        | error m => rfl
        | ok content => rfl

/-- C10: the composer performs no ordering validation on the dates: with
well-formed dates whose end precedes the start and a succeeding model
call, composition completes normally and reports a non-positive
`duration_days` equal to `(end - start).days + 1`. -/
theorem C10_no_date_order_validation (req : RequestData) (env : Env) (ds de : Date)
    (h1 : parseDate req.start_date = some ds)
    (h2 : parseDate req.end_date = some de)
    (h3 : toOrdinal de < toOrdinal ds)
    (hllm : ∀ p, (env.llm p).isOk = true) :
    (generate_itinerary req env).isOk = true ∧
    (generate_itinerary req env).map (fun r => r.request_details.duration_days)
      = .ok (dateDiffDays de ds + 1) ∧
    dateDiffDays de ds + 1 ≤ 0 := by
  have hl2 := hllm (promptFor req env ds de)
  unfold generate_itinerary
  rw [h1, h2]
  dsimp only
  cases hcall : env.llm (promptFor req env ds de) with
  | error m =>
    rw [hcall] at hl2
    exact Bool.noConfusion hl2
  | ok content =>
    dsimp only
    refine ⟨rfl, rfl, ?_⟩
    have h3i : (toOrdinal de : Int) < (toOrdinal ds : Int) := by exact_mod_cast h3
    unfold dateDiffDays
    omega

/-- Witness for C10: 2024-02-05 to 2024-02-01 completes with
duration_days = -3. -/
theorem C10_no_date_order_validation_witness :
    (generate_itinerary reqRev envFull).isOk = true ∧
    (generate_itinerary reqRev envFull).map (fun r => r.request_details.duration_days)
      = .ok (dateDiffDays ⟨2024, 2, 1⟩ ⟨2024, 2, 5⟩ + 1) ∧
    dateDiffDays ⟨2024, 2, 1⟩ ⟨2024, 2, 5⟩ + 1 ≤ 0 :=
  C10_no_date_order_validation reqRev envFull ⟨2024, 2, 5⟩ ⟨2024, 2, 1⟩
    (by decide) (by decide) (by decide) (fun p => rfl)
